import Mathlib

/-!
Verification of the whatsappbot decision core against its specification.

The embedding translates the JavaScript sources (src/safety/index.js,
src/database/db.js, src/pipeline/index.js, the follow-up/fingerprint module
and the top-level safeSend handler) into executable Lean definitions.
Text is modelled as a list of characters; JavaScript regular-expression
tests that the claims do not depend on are passed in as arbitrary boolean
predicates, so every theorem quantifying over them holds for whatever the
real regexes do.  External LLM results (fact extraction, strategy
generation) are passed in as Option-valued parameters, matching the
"null on failure" contract of the source.
-/

/-- Text, as the character sequence of a JavaScript string. -/
abbrev Str := List Char

/-- Character list of a Lean string literal. -/
def strOf (s : String) : Str := s.data

/-- JavaScript toLowerCase, restricted to the alphabets the sources use:
ASCII letters plus the German umlauts appearing in the keyword lists. -/
def lowerChar (c : Char) : Char :=
  if 'A' ≤ c ∧ c ≤ 'Z' then Char.ofNat (c.toNat + 32)
  else if c = 'Ä' then 'ä'
  else if c = 'Ö' then 'ö'
  else if c = 'Ü' then 'ü'
  else c

/-- Whether `kw` occurs at the start of `hay` (JavaScript startsWith). -/
def isPrefixCL : Str → Str → Bool
  | [], _ => true
  | _ :: _, [] => false
  | a :: as, b :: bs => a == b && isPrefixCL as bs

/-- Whether `hay` contains `kw` as a contiguous substring
(JavaScript String.prototype.includes). -/
def containsSub (hay kw : Str) : Bool :=
  match hay with
  | [] => kw.isEmpty
  | _ :: t => isPrefixCL kw hay || containsSub t kw

/-- JavaScript String.prototype.trim: strip whitespace from both ends. -/
def trimStr (s : Str) : Str :=
  ((s.dropWhile Char.isWhitespace).reverse.dropWhile Char.isWhitespace).reverse

-- ═══════════════ Enumerations of the data model ═══════════════

/-- consent_status values (db.js contacts schema). -/
inductive ConsentStatus
  | UNKNOWN | SOFT_OPTIN_SENT | OPTED_IN | DND
deriving DecidableEq, Fintype

/-- pipeline_stage values (pipeline/index.js STAGES). -/
inductive Stage
  | INTRO | QUALIFYING | VALUE_DELIVERY | BOOKING | FOLLOW_UP | WON | LOST | DND
deriving DecidableEq, Fintype

/-- The declared intent enumeration from the classifier contract. -/
inductive Intent
  | greeting | question | interest | not_interested | objection
  | confirmation | thanks | appointment | pricing | other
deriving DecidableEq, Fintype

-- ═══════════════ Stage state machine (pipeline/index.js) ═══════════════

/-- The `transitions` table and `getNextStage` of pipeline/index.js,
one branch per line of the source. -/
def getNextStage (currentStage : Stage) (intent : Intent) : Stage :=
  match currentStage with
  | .INTRO =>
      if intent ∈ [Intent.interest, .question, .pricing, .greeting] then .QUALIFYING
      else if intent = .not_interested then .LOST
      else if intent = .confirmation then .QUALIFYING
      else .INTRO
  | .QUALIFYING =>
      if intent = .appointment then .BOOKING
      else if intent = .not_interested then .LOST
      else if intent ∈ [Intent.interest, .confirmation, .question, .thanks] then .VALUE_DELIVERY
      else .QUALIFYING
  | .VALUE_DELIVERY =>
      if intent ∈ [Intent.appointment, .confirmation, .interest, .thanks] then .BOOKING
      else if intent = .not_interested then .LOST
      else .VALUE_DELIVERY
  | .BOOKING =>
      if intent = .confirmation then .WON
      else if intent = .not_interested then .LOST
      else .BOOKING
  | .FOLLOW_UP =>
      if intent ∈ [Intent.interest, .question, .confirmation] then .QUALIFYING
      else if intent = .not_interested then .LOST
      else .FOLLOW_UP
  | .WON => .WON
  | .LOST => if intent = .interest then .QUALIFYING else .LOST
  | .DND => .DND

/-- Modelled from the spec: the abbreviated transition table of section 4.1,
written from the spec's words for comparison with `getNextStage`. -/
def specNext (state : Stage) (intent : Intent) : Stage :=
  match state with
  | .INTRO =>
      if intent ∈ [Intent.interest, .question, .pricing, .greeting, .confirmation] then .QUALIFYING
      else if intent = .not_interested then .LOST
      else .INTRO
  | .QUALIFYING =>
      if intent = .appointment then .BOOKING
      else if intent = .not_interested then .LOST
      else if intent ∈ [Intent.interest, .confirmation, .question, .thanks] then .VALUE_DELIVERY
      else .QUALIFYING
  | .VALUE_DELIVERY =>
      if intent ∈ [Intent.appointment, .confirmation, .interest, .thanks] then .BOOKING
      else if intent = .not_interested then .LOST
      else .VALUE_DELIVERY
  | .BOOKING =>
      if intent = .confirmation then .WON
      else if intent = .not_interested then .LOST
      else .BOOKING
  | .FOLLOW_UP =>
      if intent ∈ [Intent.interest, .question, .confirmation] then .QUALIFYING
      else if intent = .not_interested then .LOST
      else .FOLLOW_UP
  | .WON => .WON
  | .LOST => if intent = .interest then .QUALIFYING else .LOST
  | .DND => .DND

-- ═══════════════ Keyword lists (safety/index.js) ═══════════════

/-- DND_KEYWORDS of safety/index.js. -/
def DND_KEYWORDS : List Str := [
  strOf "stop", strOf "unsubscribe", strOf "remove me", strOf "don\x27t contact",
  strOf "leave me alone", strOf "block", strOf "no more messages",
  strOf "opt out", strOf "opt-out", strOf "delete my number",
  strOf "hör auf", strOf "lass mich in ruhe", strOf "nicht mehr schreiben",
  strOf "bitte aufhören", strOf "keine nachrichten mehr", strOf "lösch meine nummer",
  strOf "schreib mir nicht mehr", strOf "will keine nachrichten"]

/-- FORBIDDEN_CLAIMS of safety/index.js. -/
def FORBIDDEN_CLAIMS : List Str := [
  strOf "guaranteed return", strOf "guaranteed roi", strOf "guaranteed profit",
  strOf "risk-free", strOf "risk free", strOf "no risk", strOf "zero risk",
  strOf "guaranteed apy", strOf "guaranteed yield",
  strOf "we promise", strOf "i promise", strOf "i guarantee",
  strOf "legal advice", strOf "legal protection",
  strOf "investment advice", strOf "financial advice",
  strOf "you will make", strOf "you\x27ll make",
  strOf "double your money", strOf "triple your money"]

/-- Number of entries of the FORBIDDEN_PATTERNS regex list in safety/index.js;
the regex tests themselves are supplied as an abstract predicate. -/
def FORBIDDEN_PATTERNS_COUNT : Nat := 8

-- ═══════════════ Database state (db.js) ═══════════════

/-- Direction of a conversation turn. -/
inductive Direction
  | incoming | outgoing
deriving DecidableEq

/-- One row of the conversations table; created_at in milliseconds. -/
structure Turn where
  phone : Str
  message : Str
  direction : Direction
  created_at : Nat
deriving DecidableEq

/-- Event types appearing in the sources. -/
inductive EventType
  | INBOUND_MESSAGE | OUTBOUND_MESSAGE | STAGE_CHANGED | CONSENT_CHANGED
  | CCB_GENERATED | ESCALATION_TRIGGERED | SEND_BLOCKED | VALIDATION_FAILED
  | CIRCUIT_BREAKER_TRIPPED | DND_SET | HUMAN_TAKEOVER | BOT_PAUSED
  | BOT_RESUMED | EMERGENCY_STOP | SEND_ERROR | FINGERPRINT_FLAGGED
  | INTENT_CLASSIFIED | FOLLOWUP_QUEUED
deriving DecidableEq

/-- One row of the append-only events table (payload kept to the fields
the claims touch). -/
structure Event where
  phone : Str
  etype : EventType
deriving DecidableEq

/-- Pass-A extraction result; its structured content is opaque LLM output
that no claim inspects, kept as a payload tag. -/
structure Facts where
  payload : Str
deriving DecidableEq

/-- The stage block of a Pass-B strategy. -/
structure StageRec where
  current : Stage
  recommended : Option Stage
  reason : Str
deriving DecidableEq

/-- Pass-B strategy result (the fields generateCCB reads). -/
structure Strategy where
  stage : Option StageRec
  conclusion : Str
  risk_score : Int
  do_not : List Str
deriving DecidableEq

/-- Conversation Conclusion Bundle as stored by setCCB (the derived
projections of the source object are functions of these two fields). -/
structure CCB where
  facts : Facts
  strategy : Strategy
deriving DecidableEq

/-- One row of the contacts table (the columns the claims touch). -/
structure Contact where
  consent_status : ConsentStatus
  pipeline_stage : Stage
  stage_reason : Option Str
  bot_paused : Bool
  human_required : Bool
  risk_score : Int
  ccb : Option CCB
  last_contacted_at : Option Nat
deriving DecidableEq

/-- A freshly inserted contact row (schema defaults of db.js). -/
def Contact.new : Contact :=
  { consent_status := .UNKNOWN, pipeline_stage := .INTRO, stage_reason := none,
    bot_paused := false, human_required := false, risk_score := 0,
    ccb := none, last_contacted_at := none }

/-- link_policy setting values. -/
inductive LinkPolicy
  | no_links_until_engagement | always_allowed
deriving DecidableEq

/-- The persistent store: contacts keyed by phone, append-only conversation
and event logs, and the settings rows the claims read. -/
structure Db where
  contacts : List (Str × Contact)
  conversations : List Turn
  events : List Event
  global_send_enabled : Bool
  max_chars_per_message : Nat
  link_policy : LinkPolicy
deriving DecidableEq

/-- Point lookup on an association list of contact rows. -/
def findC (l : List (Str × Contact)) (phone : Str) : Option Contact :=
  (l.find? (fun p => decide (p.1 = phone))).map (fun p => p.2)

/-- Update every row whose phone matches (phone is UNIQUE in the schema). -/
def updC (l : List (Str × Contact)) (phone : Str) (f : Contact → Contact) :
    List (Str × Contact) :=
  l.map (fun p => if p.1 = phone then (p.1, f p.2) else p)

/-- contacts.get. -/
def getContact (db : Db) (phone : Str) : Option Contact :=
  findC db.contacts phone

/-- contacts.update restricted to a field transformer. -/
def updateContact (db : Db) (phone : Str) (f : Contact → Contact) : Db :=
  { db with contacts := updC db.contacts phone f }

/-- events.add (id/payload/run_id columns dropped: no claim reads them). -/
def addEvent (db : Db) (phone : Str) (t : EventType) : Db :=
  { db with events := db.events ++ [⟨phone, t⟩] }

/-- conversations.add: append a turn. -/
def addTurn (db : Db) (phone message : Str) (dir : Direction) (now : Nat) : Db :=
  { db with conversations := db.conversations ++ [⟨phone, message, dir, now⟩] }

/-- contacts.updateLastContacted. -/
def updateLastContacted (db : Db) (phone : Str) (now : Nat) : Db :=
  updateContact db phone (fun c => { c with last_contacted_at := some now })

/-- contacts.setConsent: write the status and emit CONSENT_CHANGED. -/
def setConsent (db : Db) (phone : Str) (s : ConsentStatus) : Db :=
  addEvent (updateContact db phone (fun c => { c with consent_status := s })) phone .CONSENT_CHANGED

/-- contacts.setDND: set consent_status = DND and bot_paused in one UPDATE,
then emit DND_SET. -/
def setDND (db : Db) (phone : Str) : Db :=
  addEvent
    (updateContact db phone (fun c => { c with consent_status := .DND, bot_paused := true }))
    phone .DND_SET

/-- contacts.setHumanRequired: write the flag; emit HUMAN_TAKEOVER when set. -/
def setHumanRequired (db : Db) (phone : Str) (required : Bool) : Db :=
  let db1 := updateContact db phone (fun c => { c with human_required := required })
  if required then addEvent db1 phone .HUMAN_TAKEOVER else db1

/-- contacts.setCCB. -/
def setCCB (db : Db) (phone : Str) (ccb : CCB) : Db :=
  updateContact db phone (fun c => { c with ccb := some ccb })

/-- contacts.setStage: write stage and reason, emit STAGE_CHANGED. -/
def setStage (db : Db) (phone : Str) (stage : Stage) (reason : Str) : Db :=
  addEvent
    (updateContact db phone (fun c => { c with pipeline_stage := stage, stage_reason := some reason }))
    phone .STAGE_CHANGED

/-- contacts.isSendAllowed: a missing row allows sending; DND, paused or
human-required rows block it. -/
def isSendAllowed (db : Db) (phone : Str) : Bool :=
  match getContact db phone with
  | none => true
  | some c =>
    if c.consent_status = .DND then false
    else if c.bot_paused then false
    else if c.human_required then false
    else true

-- ═══════════════ Kill switch (safety/index.js) ═══════════════

/-- Process-local circuit-breaker counters. -/
structure KillState where
  errorCount : Nat
  maxConsecutiveErrors : Nat
deriving DecidableEq

/-- Counters at process start: errorCount 0, threshold 3. -/
def KillState.init : KillState := { errorCount := 0, maxConsecutiveErrors := 3 }

/-- The pseudo-phone used for system-level events. -/
def SYSTEM : Str := strOf "SYSTEM"

/-- killSwitch.recordError: bump the counter; at the threshold, turn the
global toggle off and emit CIRCUIT_BREAKER_TRIPPED. -/
def recordError (ks : KillState) (db : Db) : KillState × Db :=
  let ks1 := { ks with errorCount := ks.errorCount + 1 }
  if ks1.errorCount ≥ ks1.maxConsecutiveErrors then
    (ks1, addEvent { db with global_send_enabled := false } SYSTEM .CIRCUIT_BREAKER_TRIPPED)
  else
    (ks1, db)

/-- killSwitch.recordSuccess. -/
def recordSuccess (ks : KillState) : KillState :=
  { ks with errorCount := 0 }

/-- Outcome of killSwitch.canSend, with its reason. -/
inductive SendGate
  | allowed | blockedGlobal | blockedContact
deriving DecidableEq

/-- killSwitch.canSend: layer 1 (global toggle) then layer 2 (per-contact). -/
def canSend (db : Db) (phone : Str) : SendGate :=
  if ¬ db.global_send_enabled then .blockedGlobal
  else if ¬ isSendAllowed db phone then .blockedContact
  else .allowed

-- ═══════════════ Consent engine (safety/index.js) ═══════════════

/-- consent.checkDND: lower-case, trim, and test every DND keyword for
substring occurrence. -/
def checkDND (message : Str) : Bool :=
  let lower := trimStr (message.map lowerChar)
  DND_KEYWORDS.any (fun kw => containsSub lower kw)

/-- The fixed acknowledgment reply of consent.processInbound. -/
def ackReply : Str := strOf "Alles klar, werde mich nicht mehr melden. Alles Gute!"

/-- Action returned by consent.processInbound. -/
inductive ConsentAction
  | noAction | dnd_set | opted_in
deriving DecidableEq

/-- Result of consent.processInbound. -/
structure InboundConsentResult where
  action : ConsentAction
  reply : Option Str
  db : Db
deriving DecidableEq

/-- consent.processInbound: no record means no action; a DND keyword match
sets DND and returns the fixed reply; otherwise a reply from an UNKNOWN or
SOFT_OPTIN_SENT contact promotes them to OPTED_IN. -/
def processInbound (db : Db) (phone message : Str) : InboundConsentResult :=
  match getContact db phone with
  | none => ⟨.noAction, none, db⟩
  | some contact =>
    if checkDND message then
      ⟨.dnd_set, some ackReply, setDND db phone⟩
    else if contact.consent_status = .UNKNOWN ∨ contact.consent_status = .SOFT_OPTIN_SENT then
      ⟨.opted_in, none, setConsent db phone .OPTED_IN⟩
    else
      ⟨.noAction, none, db⟩

-- ═══════════════ Validator gate (safety/index.js) ═══════════════

/-- The regular-expression tests used by the validator and safeSend, passed
in as abstract predicates: `patternTest i` stands for
FORBIDDEN_PATTERNS[i].test, `linkTest` for the URL-like-token regex,
`identityTest` for the bot-identity regex and `ctaTest` for the
call-to-action regex.  Theorems quantify over them, so they hold for the
actual regex behaviours. -/
structure Oracles where
  patternTest : Nat → Str → Bool
  linkTest : Str → Bool
  identityTest : Str → Bool
  ctaTest : Str → Bool

/-- Violation rule tags pushed by validator.validate. -/
inductive Rule
  | length | forbidden_claim | forbidden_pattern | link_policy | identity
deriving DecidableEq

/-- Return value of validator.validate. -/
structure ValidationResult where
  valid : Bool
  violations : List Rule
  hasCTA : Bool
  charCount : Nat
deriving DecidableEq

/-- Check 1: length against max_chars_per_message. -/
def lengthViolations (db : Db) (message : Str) : List Rule :=
  if db.max_chars_per_message < message.length then [.length] else []

/-- Check 2: one forbidden_claim entry per matching FORBIDDEN_CLAIMS
substring of the lower-cased message. -/
def claimViolations (message : Str) : List Rule :=
  FORBIDDEN_CLAIMS.filterMap
    (fun claim => if containsSub (message.map lowerChar) claim then
      some .forbidden_claim else none)

/-- Check 3: one forbidden_pattern entry per matching FORBIDDEN_PATTERNS
regex. -/
def patternViolations (o : Oracles) (message : Str) : List Rule :=
  (List.range FORBIDDEN_PATTERNS_COUNT).filterMap
    (fun i => if o.patternTest i message then some .forbidden_pattern else none)

/-- Check 4: link policy; for a missing context phone or contact the stage
defaults to INTRO. -/
def linkViolations (o : Oracles) (db : Db) (message : Str) (ctxPhone : Option Str) :
    List Rule :=
  if o.linkTest message ∧ db.link_policy = .no_links_until_engagement then
    let stage := match ctxPhone.bind (fun ph => getContact db ph) with
      | some c => c.pipeline_stage
      | none => Stage.INTRO
    if stage ∈ [Stage.INTRO, .QUALIFYING] then [.link_policy] else []
  else []

/-- Check 5: bot-identity disclosure. -/
def identityViolations (o : Oracles) (message : Str) : List Rule :=
  if o.identityTest message then [.identity] else []

/-- The five blocking checks of validator.validate, in source order. -/
def allViolations (o : Oracles) (db : Db) (message : Str) (ctxPhone : Option Str) :
    List Rule :=
  lengthViolations db message ++ claimViolations message ++
    patternViolations o message ++ linkViolations o db message ctxPhone ++
    identityViolations o message

/-- validator.validate: valid iff the violation list is empty; the CTA
check is advisory only. -/
def validate (o : Oracles) (db : Db) (message : Str) (ctxPhone : Option Str) :
    ValidationResult :=
  { valid := (allViolations o db message ctxPhone).isEmpty,
    violations := allViolations o db message ctxPhone,
    hasCTA := o.ctaTest message,
    charCount := message.length }

-- ═══════════════ Escalation engine (safety/index.js) ═══════════════

/-- escalation.execute: set human_required (emitting HUMAN_TAKEOVER), raise
risk_score by 15 per trigger capped at 100, emit ESCALATION_TRIGGERED. -/
def escalationExecute (db : Db) (phone : Str) (numTriggers : Nat) : Db :=
  let db1 := setHumanRequired db phone true
  let oldRisk : Int := match getContact db1 phone with
    | some c => c.risk_score
    | none => 0
  let db2 := updateContact db1 phone
    (fun c => { c with risk_score := min 100 (oldRisk + numTriggers * 15) })
  addEvent db2 phone .ESCALATION_TRIGGERED

-- ═══════════════ CCB generator (pipeline/index.js) ═══════════════

/-- generateCCB, with the two LLM passes supplied as parameters matching
their null-on-failure contract: on null facts or null strategy return null
and leave the store untouched; otherwise store the bundle, apply the
recommended stage when it differs from the current one, overwrite
risk_score whenever the strategy's value is truthy (nonzero), then emit
CCB_GENERATED. -/
def generateCCB (factsR : Option Facts) (strategyR : Option Strategy)
    (db : Db) (phone : Str) : Option CCB × Db :=
  match factsR with
  | none => (none, db)
  | some facts =>
    match strategyR with
    | none => (none, db)
    | some strategy =>
      let ccb : CCB := { facts := facts, strategy := strategy }
      let db1 := setCCB db phone ccb
      let db2 := match strategy.stage with
        | none => db1
        | some sr => match sr.recommended with
          | none => db1
          | some recStage =>
            if recStage ≠ sr.current then setStage db1 phone recStage sr.reason else db1
      let db3 := if strategy.risk_score ≠ 0 then
          updateContact db2 phone (fun c => { c with risk_score := strategy.risk_score })
        else db2
      (some ccb, addEvent db3 phone .CCB_GENERATED)

-- ═══════════════ Fingerprint detector (followup module) ═══════════════

/-- Characters kept by the fingerprint cleaner: [a-z0-9 äöüß]. -/
def allowedChar (c : Char) : Bool :=
  ('a' ≤ c && c ≤ 'z') || ('0' ≤ c && c ≤ '9') ||
    c == ' ' || c == 'ä' || c == 'ö' || c == 'ü' || c == 'ß'

/-- fingerprint.getShingles: the set of character n-grams of the
lower-cased, filtered, trimmed text; empty when the cleaned text is shorter
than n (the source loop runs zero times then). -/
def getShingles (text : Str) (n : Nat) : Finset Str :=
  let clean := trimStr ((text.map lowerChar).filter allowedChar)
  if clean.length < n then ∅
  else ((List.range (clean.length - n + 1)).map (fun i => (clean.drop i).take n)).toFinset

/-- fingerprint.jaccardSimilarity, 0 when the union is empty. -/
def jaccardSimilarity (A B : Finset Str) : ℚ :=
  if (A ∪ B).card = 0 then 0 else ((A ∩ B).card : ℚ) / ((A ∪ B).card : ℚ)

/-- The outgoing messages within a window of the contact's history. -/
def recentOutgoing (history : List Turn) : List Str :=
  (history.filter (fun t => decide (t.direction = .outgoing))).map (fun t => t.message)

/-- fingerprint.isTooSimilar over the contact's recent-history window:
flagged when some prior outbound message's 3-gram shingle set exceeds the
threshold in Jaccard similarity. -/
def isTooSimilar (message : Str) (history : List Turn) (threshold : ℚ) : Bool :=
  let recentOut := recentOutgoing history
  if recentOut.isEmpty then false
  else
    let msgShingles := getShingles message 3
    recentOut.any (fun prev =>
      decide (threshold < jaccardSimilarity msgShingles (getShingles prev 3)))

-- ═══════════════ Follow-up scheduler (followup module) ═══════════════

/-- Follow-up message archetypes. -/
inductive MsgType
  | nudge_1 | nudge_2 | nudge_3 | reminder_4h
deriving DecidableEq

/-- Return value of followup.check. -/
structure FollowResult where
  needsFollowUp : Bool
  messageType : Option MsgType
deriving DecidableEq

/-- conversations.getRecent: the last `count` turns in chronological
order. -/
def getRecentTurns (l : List Turn) (count : Nat) : List Turn :=
  (l.reverse.take count).reverse

/-- followup.check over the chronological window of recent turns, with
elapsed minutes/hours computed from millisecond timestamps: an inbound
last turn needs no follow-up; otherwise the trailing unanswered outbound
run selects nudge 1–3 on the minutes scale, or the single 4-hour reminder,
or nothing once the ceiling is passed. -/
def followCheck (recent : List Turn) (now : Nat) : FollowResult :=
  match recent.getLast? with
  | none => ⟨false, none⟩
  | some lastMsg =>
    let minutesAgo : ℚ := (((now : Int) - (lastMsg.created_at : Int) : Int) : ℚ) / (1000 * 60)
    let hoursAgo : ℚ := minutesAgo / 60
    if lastMsg.direction = .incoming then ⟨false, none⟩
    else
      let unanswered :=
        (recent.reverse.takeWhile (fun t => decide (t.direction = .outgoing))).length
      let nudge : Option FollowResult :=
        if unanswered ≤ 3 ∧ 8 ≤ minutesAgo ∧ hoursAgo < 4 then
          if unanswered = 1 then some ⟨true, some .nudge_1⟩
          else if unanswered = 2 ∧ 8 ≤ minutesAgo then some ⟨true, some .nudge_2⟩
          else if unanswered = 3 ∧ 8 ≤ minutesAgo then some ⟨true, some .nudge_3⟩
          else none
        else none
      match nudge with
      | some r => r
      | none =>
        if 4 ≤ unanswered ∧ 4 ≤ hoursAgo ∧ hoursAgo < 48 ∧ unanswered = 4 then
          ⟨true, some .reminder_4h⟩
        else ⟨false, none⟩

/-- followup.checkAll: sweep all contacts, skipping DND consent, paused
bot, human-required and terminal stages; keep those whose check reports a
follow-up. -/
def followCheckAll (cs : List (Str × Contact)) (convs : Str → List Turn) (now : Nat) :
    List ((Str × Contact) × FollowResult) :=
  cs.filterMap (fun row =>
    if row.2.consent_status = .DND then none
    else if row.2.bot_paused || row.2.human_required then none
    else if row.2.pipeline_stage ∈ [Stage.WON, .LOST, .DND] then none
    else
      let r := followCheck (getRecentTurns (convs row.1) 10) now
      if r.needsFollowUp then some (row, r) else none)

-- ═══════════════ safeSend (v3 message handler) ═══════════════

/-- Outcome of the transport call, supplied as a parameter. -/
inductive TransportResult
  | ok | exn
deriving DecidableEq

/-- State and outputs after a safeSend run. -/
structure SafeSendResult where
  success : Bool
  ks : KillState
  db : Db
  delivered : Option Str
deriving DecidableEq

/-- conversations.getByPhone window consulted by the fingerprint gate. -/
def convsWindow (db : Db) (phone : Str) : List Turn :=
  (db.conversations.filter (fun t => decide (t.phone = phone))).reverse.take 50

/-- safeSend: kill-switch gate, validator gate, advisory fingerprint check,
then transport.  A blocked send emits SEND_BLOCKED or VALIDATION_FAILED
and touches neither the error counter nor the conversation log; only a
transport exception records an error. -/
def safeSend (o : Oracles) (tr : TransportResult) (ks : KillState) (db : Db)
    (phone message : Str) (now : Nat) : SafeSendResult :=
  match canSend db phone with
  | .blockedGlobal => ⟨false, ks, addEvent db phone .SEND_BLOCKED, none⟩
  | .blockedContact => ⟨false, ks, addEvent db phone .SEND_BLOCKED, none⟩
  | .allowed =>
    if ¬ (validate o db message (some phone)).valid then
      ⟨false, ks, addEvent db phone .VALIDATION_FAILED, none⟩
    else
      let db1 := if isTooSimilar message (convsWindow db phone) (7 / 10 : ℚ) then
          addEvent db phone .FINGERPRINT_FLAGGED
        else db
      match tr with
      | .ok =>
        let db2 := addEvent
          (updateLastContacted (addTurn db1 phone message .outgoing now) phone now)
          phone .OUTBOUND_MESSAGE
        ⟨true, ks, db2, some message⟩
      | .exn =>
        let p := recordError ks db1
        ⟨false, p.1, addEvent p.2 phone .SEND_ERROR, none⟩

-- ═══════════════ Concrete instances for witnesses ═══════════════

/-- A phone number used by the concrete stores below. -/
def phone1 : Str := strOf "4915200000001"

/-- A store holding one contact with risk_score 90. -/
def cexDb : Db :=
  { contacts := [(phone1, { Contact.new with risk_score := 90 })],
    conversations := [], events := [], global_send_enabled := true,
    max_chars_per_message := 420, link_policy := .no_links_until_engagement }

/-- A strategy whose LLM-reported risk_score is 10 and that recommends no
stage change. -/
def cexStrategy : Strategy :=
  { stage := none, conclusion := [], risk_score := 10, do_not := [] }

/-- A placeholder Pass-A result. -/
def cexFacts : Facts := { payload := [] }

/-- A strategy carrying a stage block with a differing recommendation (the
normal Pass-B shape) and a nonzero reported risk_score. -/
def cexStrategy2 : Strategy :=
  { stage := some
      { current := .INTRO,
        recommended := some .QUALIFYING,
        reason := strOf "interest" },
    conclusion := [],
    risk_score := 25,
    do_not := [] }

/-- A single stored outbound turn with the two-character message "hi". -/
def shortTurn : Turn :=
  { phone := phone1, message := strOf "hi", direction := .outgoing, created_at := 0 }

/-- A single stored outbound turn with a shingle-bearing message. -/
def longTurn : Turn :=
  { phone := phone1, message := strOf "hallo welt", direction := .outgoing, created_at := 0 }

/-- An inbound turn, for the follow-up witness. -/
def inboundTurn : Turn :=
  { phone := phone1, message := strOf "hallo", direction := .incoming, created_at := 0 }

/-- An unanswered outbound turn sent at time 0, for the follow-up
witness. -/
def outTurn : Turn :=
  { phone := phone1, message := strOf "hey", direction := .outgoing, created_at := 0 }

/-- An opted-in, unpaused INTRO contact, eligible for the follow-up
sweep. -/
def sweepContact : Contact := { Contact.new with consent_status := .OPTED_IN }

-- ═══════════════ Association-list lemmas ═══════════════

theorem findC_updC (l : List (Str × Contact)) (phone : Str) (f : Contact → Contact) :
    findC (updC l phone f) phone = (findC l phone).map f := by
  induction l with
  | nil => rfl
  | cons p t ih =>
    by_cases h : p.1 = phone
    · simp [findC, updC, List.find?, h]
    · simpa [findC, updC, List.find?, h] using ih

theorem getContact_updateContact (db : Db) (phone : Str) (f : Contact → Contact) :
    getContact (updateContact db phone f) phone = (getContact db phone).map f := by
  simpa [getContact, updateContact] using findC_updC db.contacts phone f

theorem getContact_addEvent (db : Db) (phone q : Str) (t : EventType) :
    getContact (addEvent db phone t) q = getContact db q := rfl

/-- C3: the stage transition function is total over the declared intent
enumeration and equals the spec's transition table for every (state, intent)
pair; WON and DND are absorbing; LOST re-opens to QUALIFYING exactly on
`interest` and stays LOST otherwise. -/
theorem stage_machine_matches_spec_table :
    (∀ s i, getNextStage s i = specNext s i) ∧
    (∀ i, getNextStage .WON i = .WON) ∧
    (∀ i, getNextStage .DND i = .DND) ∧
    (∀ i, getNextStage .LOST i = .QUALIFYING ↔ i = .interest) ∧
    (∀ i, ¬ i = .interest → getNextStage .LOST i = .LOST) := by
  refine ⟨?_, ?_, ?_, ?_, ?_⟩ <;> decide

/-- C1: an inbound message matching a configured opt-out phrase, for a
contact with a stored record, sets consent_status = DND and bot_paused,
emits DND_SET, returns the single fixed acknowledgment reply, and leaves
both per-contact send gates (isSendAllowed, canSend) blocked, whatever the
contact's pipeline stage. -/
theorem consent_optout_forces_dnd_and_blocks
    (db : Db) (phone message : Str) (c : Contact)
    (hc : getContact db phone = some c) (hd : checkDND message = true) :
    (processInbound db phone message).action = .dnd_set ∧
    (processInbound db phone message).reply = some ackReply ∧
    getContact (processInbound db phone message).db phone =
      some { c with consent_status := .DND, bot_paused := true } ∧
    (processInbound db phone message).db.events = db.events ++ [⟨phone, .DND_SET⟩] ∧
    isSendAllowed (processInbound db phone message).db phone = false ∧
    canSend (processInbound db phone message).db phone ≠ .allowed := by
  have hr : processInbound db phone message = ⟨.dnd_set, some ackReply, setDND db phone⟩ := by
    unfold processInbound
    rw [hc]
    simp [hd]
  rw [hr]
  have hget : getContact (setDND db phone) phone =
      some { c with consent_status := .DND, bot_paused := true } := by
    unfold setDND
    rw [getContact_addEvent, getContact_updateContact, hc]
    rfl
  have hsa : isSendAllowed (setDND db phone) phone = false := by
    unfold isSendAllowed
    rw [hget]
    rfl
  refine ⟨rfl, rfl, hget, rfl, hsa, ?_⟩
  intro hEq
  unfold canSend at hEq
  rw [hsa] at hEq
  split_ifs at hEq
  simp_all

/-- Witness for C1 at a concrete database: one contact in QUALIFYING stage
receiving the message "STOP". -/
theorem consent_optout_forces_dnd_and_blocks_witness :
    (processInbound
        { contacts := [(strOf "491700000001",
            { Contact.new with pipeline_stage := .QUALIFYING, consent_status := .OPTED_IN })],
          conversations := [], events := [], global_send_enabled := true,
          max_chars_per_message := 420, link_policy := .no_links_until_engagement }
        (strOf "491700000001") (strOf "STOP")).action = .dnd_set ∧
    isSendAllowed
      (processInbound
        { contacts := [(strOf "491700000001",
            { Contact.new with pipeline_stage := .QUALIFYING, consent_status := .OPTED_IN })],
          conversations := [], events := [], global_send_enabled := true,
          max_chars_per_message := 420, link_policy := .no_links_until_engagement }
        (strOf "491700000001") (strOf "STOP")).db (strOf "491700000001") = false := by
  have h := consent_optout_forces_dnd_and_blocks
    { contacts := [(strOf "491700000001",
        { Contact.new with pipeline_stage := .QUALIFYING, consent_status := .OPTED_IN })],
      conversations := [], events := [], global_send_enabled := true,
      max_chars_per_message := 420, link_policy := .no_links_until_engagement }
    (strOf "491700000001") (strOf "STOP")
    { Contact.new with pipeline_stage := .QUALIFYING, consent_status := .OPTED_IN }
    (by decide) (by decide)
  exact ⟨h.1, h.2.2.2.2.1⟩

/-- C2: from a zero counter with the default threshold of three, the third
consecutive recordError turns global_send_enabled off and emits
CIRCUIT_BREAKER_TRIPPED, while the first two leave the store untouched;
recordSuccess resets the counter to zero from any state. -/
theorem circuit_breaker_trips_at_three (db : Db) :
    (recordError KillState.init db).2 = db ∧
    (recordError (recordError KillState.init db).1
      (recordError KillState.init db).2).2 = db ∧
    (recordError (recordError (recordError KillState.init db).1
        (recordError KillState.init db).2).1
      (recordError (recordError KillState.init db).1
        (recordError KillState.init db).2).2).2.global_send_enabled = false ∧
    (⟨SYSTEM, .CIRCUIT_BREAKER_TRIPPED⟩ : Event) ∈
      (recordError (recordError (recordError KillState.init db).1
          (recordError KillState.init db).2).1
        (recordError (recordError KillState.init db).1
          (recordError KillState.init db).2).2).2.events ∧
    (∀ ks : KillState, (recordSuccess ks).errorCount = 0) := by
  refine ⟨?_, ?_, ?_, ?_, fun ks => rfl⟩ <;>
    simp [recordError, KillState.init, addEvent]

theorem isPrefixCL_map (f : Char → Char) (kw hay : Str)
    (h : isPrefixCL kw hay = true) : isPrefixCL (kw.map f) (hay.map f) = true := by
  induction kw generalizing hay with
  | nil => simp [isPrefixCL]
  | cons a as ih =>
    cases hay with
    | nil => simp [isPrefixCL] at h
    | cons b bs =>
      simp only [isPrefixCL, Bool.and_eq_true, beq_iff_eq] at h
      simp only [List.map, isPrefixCL, Bool.and_eq_true, beq_iff_eq]
      exact ⟨by rw [h.1], ih bs h.2⟩

theorem containsSub_map (f : Char → Char) (hay kw : Str)
    (h : containsSub hay kw = true) : containsSub (hay.map f) (kw.map f) = true := by
  induction hay with
  | nil =>
    simp only [containsSub, List.isEmpty_iff] at h
    subst h
    simp [containsSub]
  | cons b bs ih =>
    simp only [containsSub, Bool.or_eq_true] at h
    rcases h with h | h
    · have := isPrefixCL_map f kw (b :: bs) h
      simp only [List.map, containsSub, Bool.or_eq_true]
      exact Or.inl this
    · simp only [List.map, containsSub, Bool.or_eq_true]
      exact Or.inr (ih h)

theorem lowerChar_fixes_guaranteed_return :
    (strOf "guaranteed return").map lowerChar = strOf "guaranteed return" := by decide

/-- C4: a message is valid iff its violation list is empty; a message one
character over the configured maximum always carries a length violation and
one containing "guaranteed return" always carries a forbidden_claim
violation, whatever the contact's stage or the regex oracles do; replacing
the CTA oracle changes neither the verdict nor the violations. -/
theorem validator_gate_properties
    (o : Oracles) (db : Db) (message : Str) (ctxPhone : Option Str) :
    ((validate o db message ctxPhone).valid = true ↔
      (validate o db message ctxPhone).violations = []) ∧
    (message.length = db.max_chars_per_message + 1 →
      Rule.length ∈ (validate o db message ctxPhone).violations) ∧
    (containsSub message (strOf "guaranteed return") = true →
      Rule.forbidden_claim ∈ (validate o db message ctxPhone).violations) ∧
    (∀ f, (validate { o with ctaTest := f } db message ctxPhone).valid =
        (validate o db message ctxPhone).valid ∧
      (validate { o with ctaTest := f } db message ctxPhone).violations =
        (validate o db message ctxPhone).violations) := by
  refine ⟨List.isEmpty_iff, ?_, ?_, fun f => ⟨rfl, rfl⟩⟩
  · intro h
    have hlt : db.max_chars_per_message < message.length := by omega
    have hlen : Rule.length ∈ lengthViolations db message := by
      unfold lengthViolations
      simp [hlt]
    show Rule.length ∈ allViolations o db message ctxPhone
    unfold allViolations
    exact List.mem_append_left _ (List.mem_append_left _
      (List.mem_append_left _ (List.mem_append_left _ hlen)))
  · intro h
    have h2 : containsSub (message.map lowerChar) (strOf "guaranteed return") = true := by
      have h3 := containsSub_map lowerChar message (strOf "guaranteed return") h
      rwa [lowerChar_fixes_guaranteed_return] at h3
    have hmem : Rule.forbidden_claim ∈ claimViolations message := by
      rw [claimViolations, List.mem_filterMap]
      refine ⟨strOf "guaranteed return", by decide, ?_⟩
      simp [h2]
    show Rule.forbidden_claim ∈ allViolations o db message ctxPhone
    unfold allViolations
    exact List.mem_append_left _ (List.mem_append_left _
      (List.mem_append_left _ (List.mem_append_right _ hmem)))

/-- All-false regex oracles, used only to instantiate witnesses. -/
def noOracles : Oracles :=
  { patternTest := fun _ _ => false, linkTest := fun _ => false,
    identityTest := fun _ => false, ctaTest := fun _ => false }

/-- An empty store with default settings, used only to instantiate
witnesses. -/
def emptyDb : Db :=
  { contacts := [], conversations := [], events := [],
    global_send_enabled := true, max_chars_per_message := 420,
    link_policy := .no_links_until_engagement }

/-- Witness for C4: with the maximum set to 16 the 17-character message
"guaranteed return" carries a length violation, and against the default
maximum it carries a forbidden_claim violation. -/
theorem validator_gate_properties_witness :
    Rule.length ∈ (validate noOracles { emptyDb with max_chars_per_message := 16 }
      (strOf "guaranteed return") none).violations ∧
    Rule.forbidden_claim ∈ (validate noOracles emptyDb
      (strOf "guaranteed return") none).violations := by
  constructor
  · exact (validator_gate_properties noOracles
      { emptyDb with max_chars_per_message := 16 }
      (strOf "guaranteed return") none).2.1 (by decide)
  · exact (validator_gate_properties noOracles emptyDb
      (strOf "guaranteed return") none).2.2.1 (by decide)

theorem recordError_fst_errorCount (ks : KillState) (db : Db) :
    (recordError ks db).1.errorCount = ks.errorCount + 1 := by
  unfold recordError
  by_cases h : ks.errorCount + 1 ≥ ks.maxConsecutiveErrors <;> simp [h]

theorem jaccard_self (A : Finset Str) (hA : A.Nonempty) :
    jaccardSimilarity A A = 1 := by
  unfold jaccardSimilarity
  rw [Finset.union_self, Finset.inter_self]
  have hc : A.card ≠ 0 := Finset.card_ne_zero.mpr hA
  rw [if_neg hc]
  exact div_self (Nat.cast_ne_zero.mpr hc)

/-- C9: when Pass A returns null, generateCCB returns null and leaves the
store untouched: the stored CCB, pipeline_stage, stage_reason and
risk_score keep their prior values and no CCB_GENERATED event is added. -/
theorem ccb_null_facts_leaves_state_unchanged
    (strategyR : Option Strategy) (db : Db) (phone : Str) :
    (generateCCB none strategyR db phone).1 = none ∧
    (generateCCB none strategyR db phone).2 = db ∧
    getContact (generateCCB none strategyR db phone).2 phone = getContact db phone ∧
    (generateCCB none strategyR db phone).2.events = db.events :=
  ⟨rfl, rfl, rfl, rfl⟩

/-- C10: a phone with no stored contact record passes the per-contact gate:
isSendAllowed is true and canSend allows whenever the global toggle is
on. -/
theorem unknown_contact_send_allowed (db : Db) (phone : Str)
    (h : getContact db phone = none) :
    isSendAllowed db phone = true ∧
    (db.global_send_enabled = true → canSend db phone = .allowed) := by
  have hsa : isSendAllowed db phone = true := by
    unfold isSendAllowed
    rw [h]
  refine ⟨hsa, fun hg => ?_⟩
  unfold canSend
  rw [hsa, hg]
  simp

/-- Witness for C10: the empty store allows sending to any number. -/
theorem unknown_contact_send_allowed_witness :
    isSendAllowed emptyDb (strOf "490") = true ∧
    canSend emptyDb (strOf "490") = .allowed := by
  have h := unknown_contact_send_allowed emptyDb (strOf "490") (by decide)
  exact ⟨h.1, h.2 (by decide)⟩

/-- C6: a policy block never trips the breaker: a kill-switch block returns
false, emits SEND_BLOCKED, delivers nothing, appends no conversation turn
and leaves the error counter untouched; a failing validation does the same
with VALIDATION_FAILED; the counter changes only on a transport exception,
where it increments by one. -/
theorem policy_block_does_not_trip_breaker
    (o : Oracles) (tr : TransportResult) (ks : KillState) (db : Db)
    (phone message : Str) (now : Nat) :
    (canSend db phone ≠ .allowed →
      safeSend o tr ks db phone message now =
        ⟨false, ks, addEvent db phone .SEND_BLOCKED, none⟩ ∧
      (safeSend o tr ks db phone message now).db.conversations = db.conversations ∧
      (safeSend o tr ks db phone message now).ks.errorCount = ks.errorCount) ∧
    (canSend db phone = .allowed → (validate o db message (some phone)).valid = false →
      safeSend o tr ks db phone message now =
        ⟨false, ks, addEvent db phone .VALIDATION_FAILED, none⟩ ∧
      (safeSend o tr ks db phone message now).db.conversations = db.conversations ∧
      (safeSend o tr ks db phone message now).ks.errorCount = ks.errorCount) ∧
    (canSend db phone = .allowed → (validate o db message (some phone)).valid = true →
      tr = .ok → (safeSend o tr ks db phone message now).ks = ks) ∧
    (canSend db phone = .allowed → (validate o db message (some phone)).valid = true →
      tr = .exn →
      (safeSend o tr ks db phone message now).ks.errorCount = ks.errorCount + 1) := by
  refine ⟨?_, ?_, ?_, ?_⟩
  · intro h
    have hss : safeSend o tr ks db phone message now =
        ⟨false, ks, addEvent db phone .SEND_BLOCKED, none⟩ := by
      unfold safeSend
      cases hcs : canSend db phone with
      | allowed => exact absurd hcs h
      | blockedGlobal => rfl
      | blockedContact => rfl
    exact ⟨hss, by rw [hss]; rfl, by rw [hss]⟩
  · intro h1 h2
    have hss : safeSend o tr ks db phone message now =
        ⟨false, ks, addEvent db phone .VALIDATION_FAILED, none⟩ := by
      unfold safeSend
      rw [h1]
      simp [h2]
    exact ⟨hss, by rw [hss]; rfl, by rw [hss]⟩
  · intro h1 h2 h3
    subst h3
    unfold safeSend
    rw [h1]
    simp [h2]
  · intro h1 h2 h3
    subst h3
    unfold safeSend
    rw [h1]
    simp [h2, recordError_fst_errorCount]

/-- Witness for C6: with the global toggle off the gate blocks, and with a
failing concrete send the counter increments. -/
theorem policy_block_does_not_trip_breaker_witness :
    safeSend noOracles .ok KillState.init { emptyDb with global_send_enabled := false }
        (strOf "491") (strOf "hallo") 0 =
      ⟨false, KillState.init,
        addEvent { emptyDb with global_send_enabled := false } (strOf "491") .SEND_BLOCKED,
        none⟩ ∧
    (safeSend noOracles .exn KillState.init emptyDb (strOf "491") (strOf "hallo") 0).ks.errorCount = 1 := by
  constructor
  · exact ((policy_block_does_not_trip_breaker noOracles .ok KillState.init
      { emptyDb with global_send_enabled := false } (strOf "491") (strOf "hallo") 0).1
      (by decide)).1
  · exact (policy_block_does_not_trip_breaker noOracles .exn KillState.init emptyDb
      (strOf "491") (strOf "hallo") 0).2.2.2 (by decide) (by decide) rfl

/-- C5 counterexample: regenerating the CCB is an automatic operation that
DECREASES risk_score: with a stored risk_score of 90 and a strategy
reporting risk_score 10, generateCCB leaves the contact at 10. -/
theorem ccb_regen_decreases_risk_cex :
    (getContact cexDb phone1).map (fun c => c.risk_score) = some 90 ∧
    (getContact (generateCCB (some cexFacts) (some cexStrategy) cexDb phone1).2
        phone1).map (fun c => c.risk_score) = some 10 := by
  constructor <;> decide

/-- C5 (amended): escalation execution never decreases risk_score from an
in-range prior value and keeps it within 0–100, setting it to the prior
value plus 15 per trigger capped at 100; CCB regeneration, however,
overwrites risk_score with the strategy's reported value whenever that
value is nonzero, so it can decrease. -/
theorem risk_escalation_monotone_ccb_overwrites :
    (∀ (db : Db) (phone : Str) (n : Nat) (c : Contact), getContact db phone = some c →
      ∃ c', getContact (escalationExecute db phone n) phone = some c' ∧
        c'.risk_score = min 100 (c.risk_score + n * 15) ∧
        (c.risk_score ≤ 100 → c.risk_score ≤ c'.risk_score) ∧
        (0 ≤ c.risk_score → 0 ≤ c'.risk_score ∧ c'.risk_score ≤ 100)) ∧
    (∀ (facts : Facts) (strategy : Strategy) (db : Db) (phone : Str) (c : Contact),
      getContact db phone = some c → strategy.risk_score ≠ 0 →
      ∃ c', getContact (generateCCB (some facts) (some strategy) db phone).2 phone = some c' ∧
        c'.risk_score = strategy.risk_score) := by
  constructor
  · intro db phone n c hc
    have h1 : getContact (setHumanRequired db phone true) phone =
        some { c with human_required := true } := by
      have he : setHumanRequired db phone true =
          addEvent (updateContact db phone (fun x => { x with human_required := true }))
            phone .HUMAN_TAKEOVER := rfl
      rw [he, getContact_addEvent, getContact_updateContact, hc]
      rfl
    refine ⟨{ c with
      human_required := true,
      risk_score := min 100 (c.risk_score + n * 15) }, ?_, rfl, ?_, ?_⟩
    · unfold escalationExecute
      simp only [h1]
      rw [getContact_addEvent, getContact_updateContact, h1]
      rfl
    · intro hle
      exact le_min hle (by omega)
    · intro hnn
      exact ⟨le_min (by norm_num) (by omega), min_le_left _ _⟩
  · intro facts strategy db phone c hc hrisk
    have h1 : getContact (setCCB db phone { facts := facts, strategy := strategy }) phone =
        some { c with ccb := some { facts := facts, strategy := strategy } } := by
      unfold setCCB
      rw [getContact_updateContact, hc]
      rfl
    rcases hst : strategy.stage with _ | sr
    · refine ⟨{ c with
        ccb := some { facts := facts, strategy := strategy },
        risk_score := strategy.risk_score }, ?_, rfl⟩
      have hccb : generateCCB (some facts) (some strategy) db phone =
          (some { facts := facts, strategy := strategy },
           addEvent (updateContact (setCCB db phone { facts := facts, strategy := strategy })
               phone (fun x => { x with risk_score := strategy.risk_score }))
             phone .CCB_GENERATED) := by
        simp only [generateCCB, hst]
        simp [hrisk]
      rw [hccb, getContact_addEvent, getContact_updateContact, h1]
      rfl
    · rcases hrec : sr.recommended with _ | recStage
      · refine ⟨{ c with
          ccb := some { facts := facts, strategy := strategy },
          risk_score := strategy.risk_score }, ?_, rfl⟩
        have hccb : generateCCB (some facts) (some strategy) db phone =
            (some { facts := facts, strategy := strategy },
             addEvent (updateContact (setCCB db phone { facts := facts, strategy := strategy })
                 phone (fun x => { x with risk_score := strategy.risk_score }))
               phone .CCB_GENERATED) := by
          simp only [generateCCB, hst, hrec]
          simp [hrisk]
        rw [hccb, getContact_addEvent, getContact_updateContact, h1]
        rfl
      · by_cases hEq : recStage = sr.current
        · refine ⟨{ c with
            ccb := some { facts := facts, strategy := strategy },
            risk_score := strategy.risk_score }, ?_, rfl⟩
          have hccb : generateCCB (some facts) (some strategy) db phone =
              (some { facts := facts, strategy := strategy },
               addEvent (updateContact (setCCB db phone { facts := facts, strategy := strategy })
                   phone (fun x => { x with risk_score := strategy.risk_score }))
                 phone .CCB_GENERATED) := by
            simp only [generateCCB, hst, hrec]
            simp [hrisk, hEq]
          rw [hccb, getContact_addEvent, getContact_updateContact, h1]
          rfl
        · refine ⟨{ c with
            ccb := some { facts := facts, strategy := strategy },
            pipeline_stage := recStage, stage_reason := some sr.reason,
            risk_score := strategy.risk_score }, ?_, rfl⟩
          have hccb : generateCCB (some facts) (some strategy) db phone =
              (some { facts := facts, strategy := strategy },
               addEvent (updateContact
                   (setStage (setCCB db phone { facts := facts, strategy := strategy })
                     phone recStage sr.reason)
                   phone (fun x => { x with risk_score := strategy.risk_score }))
                 phone .CCB_GENERATED) := by
            simp only [generateCCB, hst, hrec]
            simp [hrisk, hEq]
          have h2 : getContact
              (setStage (setCCB db phone { facts := facts, strategy := strategy })
                phone recStage sr.reason) phone =
              some { c with
                ccb := some { facts := facts, strategy := strategy },
                pipeline_stage := recStage, stage_reason := some sr.reason } := by
            unfold setStage
            rw [getContact_addEvent, getContact_updateContact, h1]
            rfl
          rw [hccb, getContact_addEvent, getContact_updateContact, h2]
          rfl

/-- Witness for the amended C5: escalating the risk-90 contact with two
triggers caps at 100; regenerating with the risk-10 stage-free strategy
lands at 10, and regenerating with a strategy that carries a stage
recommendation and reports risk 25 lands at 25. -/
theorem risk_escalation_monotone_ccb_overwrites_witness :
    (∃ c', getContact (escalationExecute cexDb phone1 2) phone1 = some c' ∧
      c'.risk_score = min 100 (90 + 2 * 15) ∧ (90 : Int) ≤ c'.risk_score ∧
      0 ≤ c'.risk_score ∧ c'.risk_score ≤ 100) ∧
    (∃ c', getContact (generateCCB (some cexFacts) (some cexStrategy) cexDb phone1).2
        phone1 = some c' ∧ c'.risk_score = cexStrategy.risk_score) ∧
    (∃ c', getContact (generateCCB (some cexFacts) (some cexStrategy2) cexDb phone1).2
        phone1 = some c' ∧ c'.risk_score = cexStrategy2.risk_score) := by
  refine ⟨?_, ?_, ?_⟩
  · obtain ⟨c', hg, hr, hm, hb⟩ :=
      (risk_escalation_monotone_ccb_overwrites).1 cexDb phone1 2
        { Contact.new with risk_score := 90 } (by decide)
    have hm2 := hm (by decide)
    have hb2 := hb (by decide)
    exact ⟨c', hg, hr, hm2, hb2.1, hb2.2⟩
  · exact (risk_escalation_monotone_ccb_overwrites).2 cexFacts cexStrategy cexDb phone1
      { Contact.new with risk_score := 90 } (by decide) (by decide)
  · exact (risk_escalation_monotone_ccb_overwrites).2 cexFacts cexStrategy2 cexDb phone1
      { Contact.new with risk_score := 90 } (by decide) (by decide)

/-- C7 counterexample: the candidate "hi" is identical to the stored prior
outbound message "hi", the threshold 1/2 is strictly below 1, yet
isTooSimilar does not flag it, because the cleaned text is shorter than 3
characters and its shingle set is empty (similarity 0). -/
theorem identical_short_message_not_flagged_cex :
    ((1 : ℚ) / 2 < 1) ∧ shortTurn.direction = .outgoing ∧
    shortTurn.message = strOf "hi" ∧
    isTooSimilar (strOf "hi") [shortTurn] ((1 : ℚ) / 2) = false := by
  refine ⟨by norm_num, rfl, rfl, ?_⟩
  have hS : getShingles (strOf "hi") 3 = ∅ := by decide
  have hj : jaccardSimilarity ∅ ∅ = 0 := by
    unfold jaccardSimilarity
    simp
  have hlt : ¬ ((1 : ℚ) / 2 < 0) := by norm_num
  unfold isTooSimilar recentOutgoing
  simp [shortTurn, hS, hj, hlt]

/-- C7 (amended): Jaccard over shingle sets is 1 on any non-empty set
against itself, 0 whenever the sets share no shingles, and 0 when the
union is empty; a candidate identical to a stored prior outbound message
whose 3-gram shingle set is non-empty is flagged by isTooSimilar at every
threshold strictly below 1 (an identical message whose cleaned text is
shorter than 3 characters has similarity 0 and is not flagged at
non-negative thresholds). -/
theorem jaccard_properties_and_flagging :
    (∀ A : Finset Str, A.Nonempty → jaccardSimilarity A A = 1) ∧
    (∀ A B : Finset Str, A ∩ B = ∅ → jaccardSimilarity A B = 0) ∧
    (∀ A B : Finset Str, A ∪ B = ∅ → jaccardSimilarity A B = 0) ∧
    (∀ (message : Str) (history : List Turn) (threshold : ℚ),
      threshold < 1 → (getShingles message 3).Nonempty →
      (∃ t ∈ history, t.direction = .outgoing ∧ t.message = message) →
      isTooSimilar message history threshold = true) := by
  refine ⟨jaccard_self, ?_, ?_, ?_⟩
  · intro A B h
    unfold jaccardSimilarity
    split_ifs with hu
    · rfl
    · rw [h]
      simp
  · intro A B h
    unfold jaccardSimilarity
    rw [h]
    simp
  · intro message history threshold hth hne ht
    obtain ⟨t, htmem, htdir, htmsg⟩ := ht
    have hmem : message ∈ recentOutgoing history := by
      unfold recentOutgoing
      exact List.mem_map.mpr ⟨t, List.mem_filter.mpr ⟨htmem, by simp [htdir]⟩, htmsg⟩
    have hni : (recentOutgoing history).isEmpty = false := by
      cases h2 : (recentOutgoing history).isEmpty with
      | false => rfl
      | true => exact absurd (List.isEmpty_iff.mp h2) (List.ne_nil_of_mem hmem)
    have hflag : decide (threshold <
        jaccardSimilarity (getShingles message 3) (getShingles message 3)) = true := by
      rw [jaccard_self _ hne]
      exact decide_eq_true hth
    unfold isTooSimilar
    simp only [hni, Bool.false_eq_true, if_false, List.any_eq_true]
    exact ⟨message, hmem, hflag⟩

/-- Witness for the amended C7: a candidate identical to the stored
outbound "hallo welt" is flagged at the default threshold 7/10. -/
theorem jaccard_properties_and_flagging_witness :
    isTooSimilar (strOf "hallo welt") [longTurn] ((7 : ℚ) / 10) = true :=
  (jaccard_properties_and_flagging).2.2.2 (strOf "hallo welt") [longTurn]
    ((7 : ℚ) / 10) (by norm_num) (by decide)
    ⟨longTurn, List.mem_singleton.mpr rfl, rfl, rfl⟩

/-- C8: a history whose most recent turn is inbound yields no follow-up at
any elapsed time, and the sweep never emits a candidate for a contact with
DND consent, paused bot, human_required, or a terminal stage. -/
theorem followup_skips_inbound_last_and_gated :
    (∀ (recent : List Turn) (now : Nat) (t : Turn),
      recent.getLast? = some t → t.direction = .incoming →
      (followCheck recent now).needsFollowUp = false) ∧
    (∀ (cs : List (Str × Contact)) (convs : Str → List Turn) (now : Nat)
      (row : Str × Contact) (r : FollowResult),
      (row, r) ∈ followCheckAll cs convs now →
      row.2.consent_status ≠ .DND ∧ row.2.bot_paused = false ∧
      row.2.human_required = false ∧ row.2.pipeline_stage ≠ .WON ∧
      row.2.pipeline_stage ≠ .LOST ∧ row.2.pipeline_stage ≠ .DND) := by
  constructor
  · intro recent now t hl hd
    unfold followCheck
    rw [hl]
    simp [hd]
  · intro cs convs now row r h
    unfold followCheckAll at h
    rw [List.mem_filterMap] at h
    obtain ⟨a, ha, heq⟩ := h
    split_ifs at heq with h1 h2 h3
    simp only [] at heq
    split_ifs at heq with h4
    have h5 := Option.some.inj heq
    have h6 : a = row := congrArg Prod.fst h5
    subst h6
    simp only [Bool.or_eq_true, not_or, Bool.not_eq_true] at h2
    simp only [List.mem_cons, List.not_mem_nil, or_false, not_or] at h3
    exact ⟨h1, h2.1, h2.2, h3.1, h3.2.1, h3.2.2⟩

/-- Witness for C8: an inbound-last history yields no follow-up, and a
candidate actually produced by the sweep (an eligible contact, one
unanswered outbound turn, ten minutes old) satisfies every gate
condition. -/
theorem followup_skips_inbound_last_and_gated_witness :
    (followCheck [inboundTurn] 600000).needsFollowUp = false ∧
    sweepContact.consent_status ≠ .DND ∧ sweepContact.bot_paused = false ∧
    sweepContact.human_required = false ∧ sweepContact.pipeline_stage ≠ .WON := by
  have h1 := (followup_skips_inbound_last_and_gated).1 [inboundTurn] 600000 inboundTurn rfl rfl
  have hfc : followCheck (getRecentTurns [outTurn] 10) 600000 =
      { needsFollowUp := true, messageType := some MsgType.nudge_1 } := by
    have hg : getRecentTurns [outTurn] 10 = [outTurn] := rfl
    rw [hg]
    unfold followCheck
    norm_num [outTurn, List.getLast?, List.getLast]
    decide
  have hmem : ((phone1, sweepContact),
      ({ needsFollowUp := true, messageType := some MsgType.nudge_1 } : FollowResult)) ∈
      followCheckAll [(phone1, sweepContact)] (fun _ => [outTurn]) 600000 := by
    unfold followCheckAll
    rw [List.mem_filterMap]
    refine ⟨(phone1, sweepContact), List.mem_singleton.mpr rfl, ?_⟩
    rw [hfc]
    decide
  have h2 := (followup_skips_inbound_last_and_gated).2
    [(phone1, sweepContact)] (fun _ => [outTurn]) 600000 (phone1, sweepContact)
    { needsFollowUp := true, messageType := some MsgType.nudge_1 } hmem
  exact ⟨h1, h2.1, h2.2.1, h2.2.2.1, h2.2.2.2.1⟩

/-- Witness for C3: LOST self-loops on a non-interest intent, WON absorbs
interest. -/
theorem stage_machine_matches_spec_table_witness :
    getNextStage .LOST .greeting = .LOST ∧ getNextStage .WON .interest = .WON :=
  ⟨(stage_machine_matches_spec_table).2.2.2.2 .greeting (by decide),
   (stage_machine_matches_spec_table).2.1 .interest⟩
